import Mathlib

/-!
Shallow embedding of the stock correlation / impact analysis engine
(`correlation_engine.py`, class `StockCorrelationEngine`).

Modelling conventions:
- Python floats are modelled by `ℚ` (exact rational arithmetic).  `round(x, 3)`
  is modelled by `round3` using Mathlib's `round` (nearest integer); Python's
  banker's rounding differs only at exact half-way points, which none of the
  statements below depend on.
- A price series (pandas DataFrame indexed by date) is `List (Nat × ℚ)`:
  (date, close) pairs, dates strictly increasing per the data model.
- The external price provider (`yf.Ticker(...).history`) is a parameter
  `prov : String → Except String (List (Nat × ℚ))`; `Except.error` models a
  raised exception, which `get_stock_price_data` catches and converts to `none`.
- Python dict results with optionally-present keys are structures with
  `Option` fields: a `none` field models an absent key.
- The defensive `try/except` blocks whose trigger is environmental (a library
  call failing unexpectedly) are modelled by an explicit `unexpected` parameter:
  `Bool` for `calculate_correlation` (the `except` at line 103), and
  `Option String` for `analyze_stock_impact` (the `except` at line 213, the
  `String` being `str(e)`).  The result of `future.result(timeout=10)` for one
  task, whose timeout/exception is caught by the inner `try` and dropped, is
  modelled by `fr : String → Option CorrDict` (`none` = task failed/timed out).
- `pandas.Series.corr` (Pearson) is `pearson`, with the real square root
  modelled by `Rat.sqrt` (exact whenever the radicand is a perfect rational
  square; a zero denominator yields 0 via rational division-by-zero, standing
  in for pandas' NaN).
-/

namespace CorrEngine

/-- One row of the dict returned by `calculate_correlation`.  Sentinel results
carry only `correlation`, `strength`, `p_value`; real results carry
`correlation`, `strength`, `direction`, `data_points`. -/
structure CorrDict where
  correlation : ℚ
  strength : String
  direction : Option String
  p_value : Option ℚ
  data_points : Option Nat
deriving DecidableEq

/-- One element of `correlation_results` in `analyze_stock_impact`
(lines 169-176). -/
structure StockEntry where
  ticker : String
  relationship_type : String
  correlation : ℚ
  strength : String
  direction : String
  impact_score : ℚ
deriving DecidableEq

/-- The `summary` dict of `analyze_stock_impact` (lines 204-209 / 218-223). -/
structure ImpactSummary where
  total_analyzed : Nat
  average_correlation : ℚ
  max_correlation : ℚ
  market_influence : String
deriving DecidableEq

/-- The dict returned by `analyze_stock_impact`.  `timestamp` is present
(`some`) only on the success path (line 210); `error` only on the error path
(line 224). -/
structure AnalysisResult where
  primary_ticker : String
  related_stocks : List StockEntry
  summary : ImpactSummary
  timestamp : Option String
  error : Option String
deriving DecidableEq

/-- `self.sector_mapping` (lines 21-32): US sector peer lists. -/
def sector_mapping (sector : String) : List String :=
  if sector = "Technology" then
    ["AAPL", "MSFT", "GOOGL", "META", "NVDA", "CRM", "ORCL", "ADBE", "INTC", "AMD"]
  else if sector = "Financial Services" then
    ["JPM", "BAC", "WFC", "GS", "MS", "C", "USB", "PNC", "TFC", "COF"]
  else if sector = "Healthcare" then
    ["JNJ", "PFE", "UNH", "ABBV", "MRK", "TMO", "ABT", "DHR", "BMY", "AMGN"]
  else if sector = "Consumer Cyclical" then
    ["AMZN", "TSLA", "HD", "MCD", "DIS", "NKE", "SBUX", "LOW", "TJX", "BKNG"]
  else if sector = "Energy" then
    ["XOM", "CVX", "COP", "EOG", "SLB", "PSX", "VLO", "MPC", "OXY", "HAL"]
  else if sector = "Industrials" then
    ["BA", "CAT", "GE", "HON", "UNP", "LMT", "MMM", "FDX", "UPS", "RTX"]
  else if sector = "Basic Materials" then
    ["LIN", "APD", "ECL", "DD", "DOW", "FCX", "NEM", "VMC", "MLM", "PPG"]
  else if sector = "Real Estate" then
    ["AMT", "PLD", "CCI", "EQIX", "PSA", "SPG", "O", "WELL", "DLR", "EXR"]
  else if sector = "Utilities" then
    ["NEE", "DUK", "SO", "AEP", "EXC", "XEL", "SRE", "D", "PEG", "PCG"]
  else if sector = "Consumer Defensive" then
    ["PG", "KO", "PEP", "WMT", "COST", "CL", "KMB", "GIS", "K", "CPB"]
  else []

/-- `self.indian_sectors` (lines 35-43): Indian (.NS) sector peer lists. -/
def indian_sectors (sector : String) : List String :=
  if sector = "Technology" then
    ["TCS.NS", "INFY.NS", "WIPRO.NS", "HCLTECH.NS", "TECHM.NS", "LTI.NS", "MINDTREE.NS"]
  else if sector = "Financial Services" then
    ["HDFCBANK.NS", "ICICIBANK.NS", "SBIN.NS", "AXISBANK.NS", "KOTAKBANK.NS", "INDUSINDBK.NS"]
  else if sector = "Energy" then
    ["RELIANCE.NS", "ONGC.NS", "IOC.NS", "BPCL.NS", "HINDPETRO.NS", "GAIL.NS"]
  else if sector = "Consumer Cyclical" then
    ["MARUTI.NS", "BAJAJ-AUTO.NS", "M&M.NS", "EICHERMOT.NS", "HEROMOTOCO.NS"]
  else if sector = "Healthcare" then
    ["SUNPHARMA.NS", "DRREDDY.NS", "CIPLA.NS", "LUPIN.NS", "BIOCON.NS", "CADILAHC.NS"]
  else if sector = "Industrials" then
    ["LT.NS", "ULTRACEMCO.NS", "ADANIENT.NS", "ADANIPORTS.NS", "TATASTEEL.NS"]
  else if sector = "Consumer Defensive" then
    ["HINDUUNILV.NS", "ITC.NS", "NESTLEIND.NS", "GODREJCP.NS", "DABUR.NS"]
  else []

/-- `str.endswith(suffix)` (line 112), evaluated on the character sequence. -/
def ends_with (s suffix_str : String) : Bool := suffix_str.data.isSuffixOf s.data

/-- `find_sector_peers` (lines 107-119): pick the catalog by listing suffix,
drop the primary ticker, keep the first 8. -/
def find_sector_peers (ticker : String) (sector : String) : List String :=
  let sector_stocks :=
    if ends_with ticker ".NS" || ends_with ticker ".BO" then indian_sectors sector
    else sector_mapping sector
  (sector_stocks.filter (fun stock => stock ≠ ticker)).take 8

/-- `get_related_stocks` (lines 121-140); the `relationships` dict in its
insertion order `sector_peers`, `industry_peers`, `competitors`.  The
`industry` argument is unused, as in the source. -/
def get_related_stocks (ticker : String) (sector : String) (_industry : String) :
    List (String × List String) :=
  let sector_peers := find_sector_peers ticker sector
  [("sector_peers", sector_peers.take 5),
   ("industry_peers", if sector_peers.length > 2 then (sector_peers.drop 2).take 4
                      else sector_peers),
   ("competitors", sector_peers.take 4)]

/-- The membership test `stock not in all_related` at line 155, as Python
evaluates it: `all_related` holds `(ticker, category)` tuples, and in Python a
`str` never equals a `tuple`, so the test compares `stock` against each pair
and always fails to find it. -/
def str_in_pair_list (_stock : String) (acc : List (String × String)) : Bool :=
  acc.any (fun _pair => false)

/-- The `all_related` accumulation loop of `analyze_stock_impact`
(lines 152-156), category by category, with the membership check as written in
the source. -/
def flatten_related (rel : List (String × List String)) : List (String × String) :=
  rel.foldl
    (fun acc cat_stocks =>
      cat_stocks.2.foldl
        (fun acc2 stock =>
          if str_in_pair_list stock acc2 then acc2 else acc2 ++ [(stock, cat_stocks.1)])
        acc)
    []

/-- `get_stock_price_data` (lines 45-55): a provider exception is caught and
converted to `none`; an empty DataFrame is also converted to `none`. -/
def get_stock_price_data (prov : String → Except String (List (Nat × ℚ)))
    (ticker : String) : Option (List (Nat × ℚ)) :=
  match prov ticker with
  | .error _ => none
  | .ok data => if data.isEmpty then none else some data

/-- The inner join on date performed by
`pd.DataFrame({'stock1': ..., 'stock2': ...}).dropna()` (lines 68-71):
rows whose date appears in both series, paired closes, in date order. -/
def inner_join (d1 d2 : List (Nat × ℚ)) : List (ℚ × ℚ) :=
  d1.filterMap (fun p => (d2.lookup p.1).map (fun q => (p.2, q)))

/-- `Series.pct_change().dropna()` (lines 77-78): fractional change between
consecutive values; the first (NaN) row is dropped, so the length is the
input length minus one. -/
def returnsOf (l : List ℚ) : List ℚ :=
  List.zipWith (fun prev cur => cur / prev - 1) l l.tail

/-- Arithmetic mean of a list of rationals (as used inside Pearson). -/
def mean (l : List ℚ) : ℚ := l.sum / l.length

/-- Deviations from the mean. -/
def deviations (l : List ℚ) : List ℚ := l.map (fun x => x - mean l)

/-- Sum of pointwise products. -/
def dot (xs ys : List ℚ) : ℚ := ((xs.zip ys).map (fun p => p.1 * p.2)).sum

/-- `returns1.corr(returns2)` (line 81): the Pearson correlation coefficient
Σ dx·dy / √(Σ dx² · Σ dy²), with the square root modelled by `Rat.sqrt`.
A zero variance makes the denominator 0 and the quotient 0 (pandas' NaN). -/
def pearson (xs ys : List ℚ) : ℚ :=
  dot (deviations xs) (deviations ys) /
    Rat.sqrt (dot (deviations xs) (deviations xs) * dot (deviations ys) (deviations ys))

/-- `round(x, 3)` (lines 97, 206, 207): round to 3 decimal places. -/
def round3 (q : ℚ) : ℚ := (round (q * 1000) : ℤ) / 1000

/-- The strength classification of lines 84-94, a function of the (unrounded)
coefficient. -/
def strength_of (c : ℚ) : String :=
  if 0.8 ≤ |c| then "Very Strong"
  else if 0.6 ≤ |c| then "Strong"
  else if 0.4 ≤ |c| then "Moderate"
  else if 0.2 ≤ |c| then "Weak"
  else "Very Weak"

/-- The direction classification of line 99: `"Positive" if correlation > 0
else "Negative"`. -/
def direction_of (c : ℚ) : String := if 0 < c then "Positive" else "Negative"

/-- The `"No Data"` sentinel dict (line 65). -/
def no_data_result : CorrDict := ⟨0, "No Data", none, some 1, none⟩

/-- The `"Insufficient Data"` sentinel dict (line 74). -/
def insufficient_result : CorrDict := ⟨0, "Insufficient Data", none, some 1, none⟩

/-- The `"Error"` sentinel dict (line 105). -/
def error_sentinel : CorrDict := ⟨0, "Error", none, some 1, none⟩

/-- `calculate_correlation` (lines 57-105).  `unexpected` models an exception
raised by a library call after the two fetches succeed (caught by the
`except` at line 103); fetch errors are already caught inside
`get_stock_price_data` and surface as `none` here. -/
def calculate_correlation (unexpected : Bool)
    (prov : String → Except String (List (Nat × ℚ))) (t1 t2 : String) : CorrDict :=
  match get_stock_price_data prov t1, get_stock_price_data prov t2 with
  | none, _ => no_data_result
  | some _, none => no_data_result
  | some d1, some d2 =>
    if unexpected then error_sentinel
    else
      let combined := inner_join d1 d2
      if combined.length < 30 then insufficient_result
      else
        let returns1 := returnsOf (combined.map Prod.fst)
        let returns2 := returnsOf (combined.map Prod.snd)
        let correlation := pearson returns1 returns2
        ⟨round3 correlation, strength_of correlation, some (direction_of correlation),
         none, some returns1.length⟩

/-- Construction of one `correlation_results` entry (lines 169-176);
`correlation_data.get("direction", "Neutral")` is `Option.getD`. -/
def mk_entry (stock category : String) (d : CorrDict) : StockEntry :=
  ⟨stock, category, d.correlation, d.strength, d.direction.getD "Neutral",
   |d.correlation| * 100⟩

/-- The collection loop over futures (lines 165-179): a task whose
`future.result(timeout=10)` raises (`fr stock = none`) is skipped; a delivered
dict is kept only when its `correlation` differs from `0.0`. -/
def collect_results (fr : String → Option CorrDict)
    (cands : List (String × String)) : List StockEntry :=
  cands.filterMap (fun sc =>
    match fr sc.1 with
    | none => none
    | some d => if d.correlation = 0 then none else some (mk_entry sc.1 sc.2 d))

/-- Stable descending insertion: `x` goes in front of the first element whose
key is ≤ its own, so among equal keys an element inserted from the left stays
left.  Together with `sortDesc` this models Python's stable
`list.sort(key=..., reverse=True)` (line 182). -/
def insertDesc (key : StockEntry → ℚ) (x : StockEntry) :
    List StockEntry → List StockEntry
  | [] => [x]
  | y :: ys => if key y ≤ key x then x :: y :: ys else y :: insertDesc key x ys

/-- Stable sort, descending by `key`; models line 182. -/
def sortDesc (key : StockEntry → ℚ) : List StockEntry → List StockEntry
  | [] => []
  | x :: xs => insertDesc key x (sortDesc key xs)

/-- The sort key of line 182: `abs(x["correlation"])` (the stored, already
rounded coefficient). -/
def sort_key (x : StockEntry) : ℚ := |x.correlation|

/-- `np.mean([abs(r["correlation"]) for r in ...])` (line 186). -/
def avgAbs (l : List StockEntry) : ℚ := (l.map (fun r => |r.correlation|)).sum / l.length

/-- `max([abs(r["correlation"]) for r in ...])` (line 187); only used on a
nonempty list, where folding from 0 equals the true maximum because every
`|c|` is nonnegative. -/
def maxAbs (l : List StockEntry) : ℚ := (l.map (fun r => |r.correlation|)).foldr max 0

/-- The influence thresholds of lines 190-195. -/
def influence_of (avg : ℚ) : String :=
  if 0.6 ≤ avg then "High"
  else if 0.4 ≤ avg then "Moderate"
  else "Low"

/-- The summary construction of lines 184-209: thresholds on the unrounded
average when any entry survived, the `"Unknown"` zero state otherwise;
average and max are rounded for reporting. -/
def mk_summary (l : List StockEntry) : ImpactSummary :=
  if l.isEmpty then ⟨l.length, round3 0, round3 0, "Unknown"⟩
  else ⟨l.length, round3 (avgAbs l), round3 (maxAbs l), influence_of (avgAbs l)⟩

/-- `analyze_stock_impact` (lines 142-225).  `unexpected = some e` models an
unexpected exception (message `e`) raised inside the `try` block and caught at
line 213; `fr` delivers each candidate's `future.result` (`none` = the task
raised or timed out, caught by the inner `try`); `now` is
`datetime.now().isoformat()`. -/
def analyze_stock_impact (unexpected : Option String)
    (fr : String → Option CorrDict) (primary_ticker sector now : String) :
    AnalysisResult :=
  match unexpected with
  | some e => ⟨primary_ticker, [], ⟨0, 0, 0, "Error"⟩, none, some e⟩
  | none =>
    let all_related := flatten_related (get_related_stocks primary_ticker sector "")
    let collected := collect_results fr all_related
    let sorted := sortDesc sort_key collected
    ⟨primary_ticker, sorted, mk_summary sorted, some now, none⟩

/-- The whole pipeline with every task delivering
`calculate_correlation(primary, stock)` (no timeouts, no unexpected
failures): the instantiation of `analyze_stock_impact` that line 162 submits
to the executor. -/
def analyze_with_provider (prov : String → Except String (List (Nat × ℚ)))
    (primary_ticker sector now : String) : AnalysisResult :=
  analyze_stock_impact none
    (fun stock => some (calculate_correlation false prov primary_ticker stock))
    primary_ticker sector now

/-! Concrete example inputs used by witnesses and counterexamples. -/

/-- A 30-row price series (dates 0..29, closes alternating 1 and 2, so the
derived returns are non-constant). -/
def exSeries30 : List (Nat × ℚ) :=
  [(0, 1), (1, 2), (2, 1), (3, 2), (4, 1), (5, 2), (6, 1), (7, 2), (8, 1), (9, 2),
   (10, 1), (11, 2), (12, 1), (13, 2), (14, 1), (15, 2), (16, 1), (17, 2), (18, 1), (19, 2),
   (20, 1), (21, 2), (22, 1), (23, 2), (24, 1), (25, 2), (26, 1), (27, 2), (28, 1), (29, 2)]

/-- A 5-row price series (fewer than 30 paired observations). -/
def exSeries5 : List (Nat × ℚ) := [(0, 1), (1, 2), (2, 1), (3, 2), (4, 1)]

/-- A provider knowing exactly the tickers T1 and T2, both mapped to the
30-row series. -/
def exProv30 : String → Except String (List (Nat × ℚ)) :=
  fun t => if t = "T1" || t = "T2" then .ok exSeries30 else .error "unavailable"

/-- A provider knowing exactly the tickers S1 and S2, both mapped to the
5-row series. -/
def exProv5 : String → Except String (List (Nat × ℚ)) :=
  fun t => if t = "S1" || t = "S2" then .ok exSeries5 else .error "unavailable"

/-- A provider that raises for every ticker. -/
def exProvErr : String → Except String (List (Nat × ℚ)) := fun _ => .error "boom"

/-- A provider returning an empty DataFrame for E1 and the 30-row series
otherwise. -/
def exProvEmpty : String → Except String (List (Nat × ℚ)) :=
  fun t => if t = "E1" then .ok [] else .ok exSeries30

/-- A task-result map delivering a real correlation dict for ORCL only;
every other candidate's task fails/times out. -/
def exFr : String → Option CorrDict :=
  fun t => if t = "ORCL" then some ⟨1, "Very Strong", some "Positive", none, some 100⟩
           else none

/-- A task-result map where every task fails. -/
def exFrNone : String → Option CorrDict := fun _ => none

/-! Helper lemmas. -/

theorem returnsOf_length (l : List ℚ) : (returnsOf l).length = l.length - 1 := by
  cases l with
  | nil => rfl
  | cons x xs => simp [returnsOf]

theorem strength_of_not_sentinel (c : ℚ) :
    strength_of c ≠ "No Data" ∧ strength_of c ≠ "Insufficient Data" ∧
      strength_of c ≠ "Error" := by
  unfold strength_of
  split_ifs <;> exact ⟨by decide, by decide, by decide⟩

theorem round3_zero : round3 0 = 0 := by
  simp [round3]

theorem mem_insertDesc (key : StockEntry → ℚ) (x z : StockEntry) :
    ∀ l : List StockEntry, (z ∈ insertDesc key x l ↔ z = x ∨ z ∈ l)
  | [] => by simp [insertDesc]
  | y :: ys => by
    simp only [insertDesc]
    split
    · simp [List.mem_cons]
    · rw [List.mem_cons, mem_insertDesc key x z ys, List.mem_cons]
      tauto

theorem mem_sortDesc (key : StockEntry → ℚ) (z : StockEntry) :
    ∀ l : List StockEntry, (z ∈ sortDesc key l ↔ z ∈ l)
  | [] => Iff.rfl
  | x :: xs => by
    show z ∈ insertDesc key x (sortDesc key xs) ↔ _
    rw [mem_insertDesc, mem_sortDesc key z xs, List.mem_cons]

theorem pairwise_insertDesc (key : StockEntry → ℚ) (x : StockEntry) :
    ∀ l : List StockEntry, l.Pairwise (fun a b => key b ≤ key a) →
      (insertDesc key x l).Pairwise (fun a b => key b ≤ key a)
  | [], _ => by simp [insertDesc]
  | y :: ys, h => by
    rw [List.pairwise_cons] at h
    simp only [insertDesc]
    split
    · rename_i hle
      refine List.pairwise_cons.2 ⟨?_, List.pairwise_cons.2 h⟩
      intro b hb
      rcases List.mem_cons.1 hb with hb | hb
      · exact hb ▸ hle
      · exact (h.1 b hb).trans hle
    · rename_i hgt
      refine List.pairwise_cons.2 ⟨?_, pairwise_insertDesc key x ys h.2⟩
      intro b hb
      rcases (mem_insertDesc key x b ys).1 hb with hb | hb
      · exact hb ▸ (le_of_lt (lt_of_not_le hgt))
      · exact h.1 b hb

theorem pairwise_sortDesc (key : StockEntry → ℚ) :
    ∀ l : List StockEntry, (sortDesc key l).Pairwise (fun a b => key b ≤ key a)
  | [] => List.Pairwise.nil
  | x :: xs => pairwise_insertDesc key x (sortDesc key xs) (pairwise_sortDesc key xs)

theorem filter_insertDesc (key : StockEntry → ℚ) (x : StockEntry) (q : ℚ) :
    ∀ l : List StockEntry,
      (insertDesc key x l).filter (fun z => decide (key z = q)) =
        if key x = q then x :: l.filter (fun z => decide (key z = q))
        else l.filter (fun z => decide (key z = q))
  | [] => by
    by_cases h : key x = q <;> simp [insertDesc, List.filter_cons, h]
  | y :: ys => by
    simp only [insertDesc]
    by_cases hc : key y ≤ key x
    · rw [if_pos hc]
      by_cases h : key x = q <;> simp [List.filter_cons, h]
    · rw [if_neg hc]
      by_cases h : key x = q
      · have hy : ¬ (key y = q) := fun hy => hc (le_of_eq (hy.trans h.symm))
        simp [List.filter_cons, hy, filter_insertDesc key x q ys, h]
      · by_cases hy : key y = q <;>
          simp [List.filter_cons, hy, filter_insertDesc key x q ys, h]

theorem filter_sortDesc (key : StockEntry → ℚ) (q : ℚ) :
    ∀ l : List StockEntry,
      (sortDesc key l).filter (fun z => decide (key z = q)) =
        l.filter (fun z => decide (key z = q))
  | [] => rfl
  | x :: xs => by
    show (insertDesc key x (sortDesc key xs)).filter _ = _
    rw [filter_insertDesc]
    by_cases h : key x = q <;> simp [h, filter_sortDesc key q xs, List.filter_cons]

theorem mem_collect_results {fr : String → Option CorrDict}
    {cands : List (String × String)} {e : StockEntry}
    (h : e ∈ collect_results fr cands) :
    ∃ sc ∈ cands, ∃ d : CorrDict,
      fr sc.1 = some d ∧ d.correlation ≠ 0 ∧ e = mk_entry sc.1 sc.2 d := by
  rcases List.mem_filterMap.1 h with ⟨sc, hmem, hf⟩
  split at hf
  · exact absurd hf (by simp)
  · rename_i d hfr
    split at hf
    · exact absurd hf (by simp)
    · rename_i hz
      injection hf with hf
      exact ⟨sc, hmem, d, hfr, hz, hf.symm⟩

theorem flatten_related_empty_of_no_peers {p s : String}
    (h : find_sector_peers p s = []) :
    flatten_related (get_related_stocks p s "") = [] := by
  have hg : get_related_stocks p s ""
      = [("sector_peers", []), ("industry_peers", []), ("competitors", [])] := by
    simp [get_related_stocks, h]
  rw [hg]
  rfl

/-! Claim theorems. -/

/-- Claim C1 (code_bug): the claim says the candidate list built in
`analyze_stock_impact` is deduplicated, each ticker recorded once with its
first-seen category.  The source's membership test `stock not in all_related`
(line 155) compares the ticker string against `(ticker, category)` tuples and
therefore never succeeds, so the flattened list keeps every occurrence: for
primary AAPL in Technology, MSFT appears both under `sector_peers` and under
`competitors`, i.e. twice. -/
theorem C1_candidate_list_keeps_duplicates :
    ("MSFT", "sector_peers") ∈ flatten_related (get_related_stocks "AAPL" "Technology" "") ∧
    ("MSFT", "competitors") ∈ flatten_related (get_related_stocks "AAPL" "Technology" "") ∧
    ((flatten_related (get_related_stocks "AAPL" "Technology" "")).map Prod.fst).count "MSFT"
      = 2 := by
  decide

/-- Claim C2 (confirmed): an unexpected failure (message `e`) during
orchestration is caught and converted into a result with empty
`related_stocks`, `market_influence = "Error"`, `total_analyzed = 0`, average
and max correlation 0, and the diagnostic `error` field set to `e`; `analyze`
itself is a total function (it never raises). -/
theorem C2_unexpected_failure_yields_error_result (e : String)
    (fr : String → Option CorrDict) (p s now : String) :
    analyze_stock_impact (some e) fr p s now =
      ⟨p, [], ⟨0, 0, 0, "Error"⟩, none, some e⟩ := rfl

/-- Claim C9 (corrected), counterexample: the whole-result error state does
NOT carry a timestamp — the dict built in the `except` branch (lines 215-225)
has no `timestamp` key, so the claim "every result, including the error
state, contains a generatedAt timestamp" is false at this input. -/
theorem C9_error_result_has_no_timestamp :
    (analyze_stock_impact (some "boom") exFrNone "AAPL" "Technology"
      "2024-01-01T00:00:00").timestamp = none := rfl

/-- Claim C9 (corrected), amended: every success-path result carries the
`generatedAt` timestamp (alongside primary ticker, related stocks and
summary), while the whole-result error state carries the primary ticker and
the diagnostic `error` field but omits the timestamp. -/
theorem C9_timestamp_on_success_only (fr : String → Option CorrDict)
    (p s now : String) :
    ((analyze_stock_impact none fr p s now).timestamp = some now ∧
      (analyze_stock_impact none fr p s now).primary_ticker = p) ∧
    (∀ e : String,
      (analyze_stock_impact (some e) fr p s now).timestamp = none ∧
      (analyze_stock_impact (some e) fr p s now).error = some e ∧
      (analyze_stock_impact (some e) fr p s now).primary_ticker = p) :=
  ⟨⟨rfl, rfl⟩, fun _ => ⟨rfl, rfl, rfl⟩⟩

/-- Claim C4 (confirmed): strength and direction are pure deterministic
functions of the computed coefficient (the classification at lines 84-99 runs
on the unrounded value, as the spec's step 5 before step 6); the strength
boundaries are closed on the high side, and direction is "Positive" iff the
coefficient is strictly positive, so a coefficient of exactly 0 is classified
"Negative" (never "Neutral"). -/
theorem C4_strength_direction_boundaries (c : ℚ) :
    (strength_of c = "Very Strong" ↔ 0.8 ≤ |c|) ∧
    (strength_of c = "Strong" ↔ 0.6 ≤ |c| ∧ |c| < 0.8) ∧
    (strength_of c = "Moderate" ↔ 0.4 ≤ |c| ∧ |c| < 0.6) ∧
    (strength_of c = "Weak" ↔ 0.2 ≤ |c| ∧ |c| < 0.4) ∧
    (strength_of c = "Very Weak" ↔ |c| < 0.2) ∧
    (direction_of c = "Positive" ↔ 0 < c) ∧
    (direction_of c = "Negative" ↔ c ≤ 0) := by
  unfold strength_of direction_of
  split_ifs with h1 h2 h3 h4 h5 <;>
    refine ⟨?_, ?_, ?_, ?_, ?_, ?_, ?_⟩ <;>
    constructor <;> intro hx <;>
    first
      | rfl
      | assumption
      | (exact absurd hx (by decide))
      | (exact ⟨by linarith, by linarith⟩)
      | linarith

/-- Claim C3 (corrected), counterexample: with 30 joined price rows the
result is NOT a sentinel (its strength is one of the five bucket names) yet
its reported sample size is 29, not ≥ 30: `pct_change().dropna()` consumes
one row, so `data_points = len(combined) - 1`. -/
theorem C3_nonsentinel_sample_29 :
    (calculate_correlation false exProv30 "T1" "T2").data_points = some 29 ∧
    (calculate_correlation false exProv30 "T1" "T2").strength ≠ "No Data" ∧
    (calculate_correlation false exProv30 "T1" "T2").strength ≠ "Insufficient Data" ∧
    (calculate_correlation false exProv30 "T1" "T2").strength ≠ "Error" := by
  have h : (calculate_correlation false exProv30 "T1" "T2").strength
      = strength_of (pearson
          (returnsOf ((inner_join exSeries30 exSeries30).map Prod.fst))
          (returnsOf ((inner_join exSeries30 exSeries30).map Prod.snd))) := rfl
  refine ⟨rfl, ?_, ?_, ?_⟩ <;> rw [h]
  exacts [(strength_of_not_sentinel _).1, (strength_of_not_sentinel _).2.1,
    (strength_of_not_sentinel _).2.2]

/-- Claim C3 (corrected), amended: every result carrying a reported sample
size has at least 29 paired return observations (the joined length, at least
30, minus one), and whenever both fetches succeed and the joined series has
fewer than 30 paired price observations the result is the "Insufficient
Data" sentinel with coefficient 0. -/
theorem C3_amended_min_sample (u : Bool)
    (prov : String → Except String (List (Nat × ℚ))) (t1 t2 : String) :
    (∀ n : Nat, (calculate_correlation u prov t1 t2).data_points = some n → 29 ≤ n) ∧
    (∀ d1 d2 : List (Nat × ℚ), get_stock_price_data prov t1 = some d1 →
      get_stock_price_data prov t2 = some d2 → (inner_join d1 d2).length < 30 →
      calculate_correlation false prov t1 t2 = insufficient_result) := by
  constructor
  · intro n hn
    rcases hg1 : get_stock_price_data prov t1 with _ | d1 <;>
      rcases hg2 : get_stock_price_data prov t2 with _ | d2 <;>
      simp only [calculate_correlation, hg1, hg2, no_data_result] at hn
    · exact absurd hn (by simp)
    · exact absurd hn (by simp)
    · exact absurd hn (by simp)
    · split_ifs at hn with hu hlen
      · exact absurd hn (by simp [error_sentinel])
      · exact absurd hn (by simp [insufficient_result])
      · simp only [Option.some.injEq] at hn
        rw [← hn, returnsOf_length, List.length_map]
        omega
  · intro d1 d2 h1 h2 hlen
    simp only [calculate_correlation, h1, h2, Bool.false_eq_true, if_false]
    rw [if_pos hlen]

/-- Claim C3 (corrected), witness for `C3_amended_min_sample`: the 30-row
provider yields a reported sample size of 29 ≥ 29, and the 5-row provider
trips the insufficient-data branch. -/
theorem C3_amended_witness :
    ((calculate_correlation false exProv30 "T1" "T2").data_points = some 29 ∧ 29 ≤ 29) ∧
    (get_stock_price_data exProv5 "S1" = some exSeries5 ∧
     get_stock_price_data exProv5 "S2" = some exSeries5 ∧
     (inner_join exSeries5 exSeries5).length < 30 ∧
     calculate_correlation false exProv5 "S1" "S2" = insufficient_result) :=
  ⟨⟨rfl, (C3_amended_min_sample false exProv30 "T1" "T2").1 29 rfl⟩,
   ⟨rfl, rfl, by decide,
    (C3_amended_min_sample false exProv5 "S1" "S2").2 exSeries5 exSeries5 rfl rfl
      (by decide)⟩⟩

/-- Claim C8 (confirmed): a data-retrieval error is caught and surfaces as a
missing series; a missing or empty series on either side makes `correlate`
return the "No Data" sentinel (coefficient 0, strength "No Data"); the
function is total by construction, so it never raises. -/
theorem C8_no_data_sentinel_total (prov : String → Except String (List (Nat × ℚ)))
    (t1 t2 : String) (u : Bool) :
    (∀ e : String, prov t1 = .error e → get_stock_price_data prov t1 = none) ∧
    (prov t1 = .ok [] → get_stock_price_data prov t1 = none) ∧
    (get_stock_price_data prov t1 = none →
      calculate_correlation u prov t1 t2 = no_data_result) ∧
    (get_stock_price_data prov t2 = none →
      calculate_correlation u prov t1 t2 = no_data_result) := by
  refine ⟨?_, ?_, ?_, ?_⟩
  · intro e he
    simp [get_stock_price_data, he]
  · intro he
    simp [get_stock_price_data, he]
  · intro h1
    simp [calculate_correlation, h1]
  · intro h2
    rcases hg1 : get_stock_price_data prov t1 with _ | d1 <;>
      simp [calculate_correlation, hg1, h2]

/-- Claim C8 (confirmed), witness for `C8_no_data_sentinel_total`: a raising
provider and an empty series both produce the "No Data" sentinel. -/
theorem C8_witness :
    (exProvErr "T1" = .error "boom" ∧
     get_stock_price_data exProvErr "T1" = none ∧
     calculate_correlation false exProvErr "T1" "T2" = no_data_result) ∧
    (get_stock_price_data exProvEmpty "E1" = none ∧
     calculate_correlation false exProvEmpty "X" "E1" = no_data_result) :=
  ⟨⟨rfl, (C8_no_data_sentinel_total exProvErr "T1" "T2" false).1 "boom" rfl,
    (C8_no_data_sentinel_total exProvErr "T1" "T2" false).2.2.1 rfl⟩,
   ⟨rfl, (C8_no_data_sentinel_total exProvEmpty "X" "E1" false).2.2.2 rfl⟩⟩

/-- Claim C10 (confirmed): every sentinel result (strength "No Data",
"Insufficient Data" or "Error") carries exactly coefficient 0, the strength
label and `p_value = 1`, omitting the direction and sample-size fields; and
the analyzer substitutes "Neutral" for a missing direction field
(`correlation_data.get("direction", "Neutral")`, line 174). -/
theorem C10_sentinel_fields_and_neutral (u : Bool)
    (prov : String → Except String (List (Nat × ℚ))) (t1 t2 : String) :
    ((calculate_correlation u prov t1 t2).strength = "No Data" ∨
     (calculate_correlation u prov t1 t2).strength = "Insufficient Data" ∨
     (calculate_correlation u prov t1 t2).strength = "Error" →
      (calculate_correlation u prov t1 t2).correlation = 0 ∧
      (calculate_correlation u prov t1 t2).p_value = some 1 ∧
      (calculate_correlation u prov t1 t2).direction = none ∧
      (calculate_correlation u prov t1 t2).data_points = none) ∧
    (∀ stock category : String, ∀ d : CorrDict,
      (mk_entry stock category d).direction = d.direction.getD "Neutral") := by
  constructor
  · intro hs
    rcases hg1 : get_stock_price_data prov t1 with _ | d1 <;>
      rcases hg2 : get_stock_price_data prov t2 with _ | d2 <;>
      simp only [calculate_correlation, hg1, hg2, no_data_result] at hs ⊢ <;>
      try exact ⟨trivial, trivial, trivial, trivial⟩
    split_ifs at hs ⊢ with hu hlen
    · exact ⟨rfl, rfl, rfl, rfl⟩
    · exact ⟨rfl, rfl, rfl, rfl⟩
    · exact absurd hs (by
        push_neg
        exact ⟨(strength_of_not_sentinel _).1, (strength_of_not_sentinel _).2.1,
          (strength_of_not_sentinel _).2.2⟩)
  · intro stock category d
    rfl

/-- Claim C10 (confirmed), witness for `C10_sentinel_fields_and_neutral`: the
raising provider produces the "No Data" sentinel, whose record carries only
coefficient 0, the label and `p_value = 1`; `mk_entry` on it reads direction
"Neutral". -/
theorem C10_witness :
    ((calculate_correlation false exProvErr "T1" "T2").strength = "No Data" ∧
     (calculate_correlation false exProvErr "T1" "T2").correlation = 0 ∧
     (calculate_correlation false exProvErr "T1" "T2").p_value = some 1 ∧
     (calculate_correlation false exProvErr "T1" "T2").direction = none ∧
     (calculate_correlation false exProvErr "T1" "T2").data_points = none) ∧
    (mk_entry "MSFT" "sector_peers" no_data_result).direction = "Neutral" :=
  ⟨⟨rfl,
    (C10_sentinel_fields_and_neutral false exProvErr "T1" "T2").1 (Or.inl rfl)⟩,
   (C10_sentinel_fields_and_neutral false exProvErr "T1" "T2").2 "MSFT"
     "sector_peers" no_data_result⟩

/-- Claim C5 (confirmed): the output sequence is sorted descending by the
absolute value of the stored coefficient (`mk_entry` stores the correlation
dict's coefficient verbatim, which `calculate_correlation` has already
rounded to 3 decimals, so the rounded value is the sort key), and the sort is
stable: for every key value, the entries carrying it appear in the same order
as in the list collected from the flattened candidate list. -/
theorem C5_ranking_stable_desc (fr : String → Option CorrDict) (p s now : String) :
    ((analyze_stock_impact none fr p s now).related_stocks).Pairwise
      (fun a b => sort_key b ≤ sort_key a) ∧
    (∀ q : ℚ,
      ((analyze_stock_impact none fr p s now).related_stocks).filter
          (fun z => decide (sort_key z = q)) =
        (collect_results fr (flatten_related (get_related_stocks p s ""))).filter
          (fun z => decide (sort_key z = q))) ∧
    (∀ stock category : String, ∀ d : CorrDict,
      (mk_entry stock category d).correlation = d.correlation) := by
  refine ⟨?_, ?_, fun _ _ _ => rfl⟩
  · exact pairwise_sortDesc sort_key
      (collect_results fr (flatten_related (get_related_stocks p s "")))
  · intro q
    exact filter_sortDesc sort_key q
      (collect_results fr (flatten_related (get_related_stocks p s "")))

/-- Claim C6 (confirmed): every entry of the output list has a coefficient
different from 0: the collection loop keeps a delivered result only when its
coefficient differs from 0.0, which drops every zero-coefficient sentinel
(no data / insufficient data / error all carry coefficient 0) and also a
genuine coefficient of exactly 0. -/
theorem C6_output_coefficients_nonzero (fr : String → Option CorrDict)
    (p s now : String) (e : StockEntry) :
    e ∈ (analyze_stock_impact none fr p s now).related_stocks →
      e.correlation ≠ 0 := by
  intro hm
  have hm' : e ∈ collect_results fr (flatten_related (get_related_stocks p s "")) :=
    (mem_sortDesc sort_key e
      (collect_results fr (flatten_related (get_related_stocks p s "")))).1 hm
  rcases mem_collect_results hm' with ⟨sc, _, d, _, hz, he⟩
  rw [he]
  exact hz

/-- Claim C6 (confirmed), witness for `C6_output_coefficients_nonzero`: with
one delivered nonzero result (ORCL, coefficient 1) the output holds exactly
that entry, and its coefficient is nonzero. -/
theorem C6_witness :
    mk_entry "ORCL" "industry_peers" ⟨1, "Very Strong", some "Positive", none, some 100⟩ ∈
      (analyze_stock_impact none exFr "AAPL" "Technology" "now").related_stocks ∧
    (mk_entry "ORCL" "industry_peers"
      ⟨1, "Very Strong", some "Positive", none, some 100⟩).correlation ≠ 0 := by
  have h0 : (analyze_stock_impact none exFr "AAPL" "Technology" "now").related_stocks
      = [mk_entry "ORCL" "industry_peers"
          ⟨1, "Very Strong", some "Positive", none, some 100⟩] := rfl
  have hm : mk_entry "ORCL" "industry_peers"
      ⟨1, "Very Strong", some "Positive", none, some 100⟩ ∈
        (analyze_stock_impact none exFr "AAPL" "Technology" "now").related_stocks := by
    rw [h0]
    exact List.mem_singleton.2 rfl
  exact ⟨hm, C6_output_coefficients_nonzero exFr "AAPL" "Technology" "now" _ hm⟩

/-- Claim C7 (confirmed): for an analysis completing without unexpected
failure, `market_influence` is "High" iff the average of absolute stored
coefficients over the surviving entries is ≥ 0.6, "Moderate" iff it lies in
[0.4, 0.6), "Low" iff it is below 0.4 (with survivors present), and
"Unknown" exactly when no entry survived — in which case the summary reports
0 for total, average and max; in particular a primary/sector pair whose
resolver yields no peers produces the empty, "Unknown", total-0 summary and
(by totality of the embedding) no exception. -/
theorem C7_influence_thresholds (fr : String → Option CorrDict) (p s now : String) :
    ((analyze_stock_impact none fr p s now).summary.market_influence = "Unknown" ↔
      (analyze_stock_impact none fr p s now).related_stocks = []) ∧
    ((analyze_stock_impact none fr p s now).summary.market_influence = "High" ↔
      (analyze_stock_impact none fr p s now).related_stocks ≠ [] ∧
      0.6 ≤ avgAbs ((analyze_stock_impact none fr p s now).related_stocks)) ∧
    ((analyze_stock_impact none fr p s now).summary.market_influence = "Moderate" ↔
      (analyze_stock_impact none fr p s now).related_stocks ≠ [] ∧
      0.4 ≤ avgAbs ((analyze_stock_impact none fr p s now).related_stocks) ∧
      avgAbs ((analyze_stock_impact none fr p s now).related_stocks) < 0.6) ∧
    ((analyze_stock_impact none fr p s now).summary.market_influence = "Low" ↔
      (analyze_stock_impact none fr p s now).related_stocks ≠ [] ∧
      avgAbs ((analyze_stock_impact none fr p s now).related_stocks) < 0.4) ∧
    ((analyze_stock_impact none fr p s now).related_stocks = [] →
      (analyze_stock_impact none fr p s now).summary = ⟨0, 0, 0, "Unknown"⟩) ∧
    (find_sector_peers p s = [] →
      (analyze_stock_impact none fr p s now).related_stocks = [] ∧
      (analyze_stock_impact none fr p s now).summary.total_analyzed = 0 ∧
      (analyze_stock_impact none fr p s now).summary.market_influence = "Unknown") := by
  have hrel : (analyze_stock_impact none fr p s now).related_stocks
      = sortDesc sort_key
          (collect_results fr (flatten_related (get_related_stocks p s ""))) := rfl
  have hsum : (analyze_stock_impact none fr p s now).summary
      = mk_summary (sortDesc sort_key
          (collect_results fr (flatten_related (get_related_stocks p s "")))) := rfl
  obtain ⟨L, hLdef⟩ : ∃ L, sortDesc sort_key
      (collect_results fr (flatten_related (get_related_stocks p s ""))) = L :=
    ⟨_, rfl⟩
  rw [hrel, hsum, hLdef]
  by_cases hL : L = []
  · subst hL
    have h0 : mk_summary [] = ⟨0, round3 0, round3 0, "Unknown"⟩ := rfl
    rw [h0]
    refine ⟨by simp, ?_, ?_, ?_, ?_, ?_⟩
    · exact ⟨fun hx => absurd hx (by decide), fun hx => absurd rfl hx.1⟩
    · exact ⟨fun hx => absurd hx (by decide), fun hx => absurd rfl hx.1⟩
    · exact ⟨fun hx => absurd hx (by decide), fun hx => absurd rfl hx.1⟩
    · intro _
      rw [round3_zero]
    · intro _
      exact ⟨rfl, rfl, rfl⟩
  · have hne : ¬ (L.isEmpty = true) := by
      cases L with
      | nil => exact absurd rfl hL
      | cons a as => simp
    have hmi : mk_summary L
        = ⟨L.length, round3 (avgAbs L), round3 (maxAbs L), influence_of (avgAbs L)⟩ := by
      rw [mk_summary, if_neg hne]
    rw [hmi]
    dsimp only
    have hlast : ¬ (find_sector_peers p s = []) := by
      intro hps
      apply hL
      rw [← hLdef, flatten_related_empty_of_no_peers hps]
      rfl
    unfold influence_of
    by_cases h6 : (0.6 : ℚ) ≤ avgAbs L
    · rw [if_pos h6]
      refine ⟨⟨fun hx => absurd hx (by decide), fun hx => absurd hx hL⟩,
        ⟨fun _ => ⟨hL, h6⟩, fun _ => rfl⟩, ?_, ?_,
        fun hx => absurd hx hL, fun hx => absurd hx hlast⟩
      · exact ⟨fun hx => absurd hx (by decide), fun hx => absurd h6 (not_le.2 hx.2.2)⟩
      · exact ⟨fun hx => absurd hx (by decide), fun hx => absurd h6 (not_le.2 (by linarith [hx.2]))⟩
    · rw [if_neg h6]
      by_cases h4 : (0.4 : ℚ) ≤ avgAbs L
      · rw [if_pos h4]
        refine ⟨⟨fun hx => absurd hx (by decide), fun hx => absurd hx hL⟩,
          ⟨fun hx => absurd hx (by decide), fun hx => absurd hx.2 h6⟩,
          ⟨fun _ => ⟨hL, h4, lt_of_not_le h6⟩, fun _ => rfl⟩, ?_,
          fun hx => absurd hx hL, fun hx => absurd hx hlast⟩
        · exact ⟨fun hx => absurd hx (by decide), fun hx => absurd h4 (not_le.2 hx.2)⟩
      · rw [if_neg h4]
        exact ⟨⟨fun hx => absurd hx (by decide), fun hx => absurd hx hL⟩,
          ⟨fun hx => absurd hx (by decide), fun hx => absurd hx.2 h6⟩,
          ⟨fun hx => absurd hx (by decide), fun hx => absurd hx.2.1 h4⟩,
          ⟨fun _ => ⟨hL, lt_of_not_le h4⟩, fun _ => rfl⟩,
          fun hx => absurd hx hL, fun hx => absurd hx hlast⟩

/-- Claim C7 (confirmed), witness for `C7_influence_thresholds`: AAPL with
the unknown sector "Pharma" resolves to zero candidates, and the analysis
returns the empty list with the "Unknown", total-0 summary. -/
theorem C7_witness :
    find_sector_peers "AAPL" "Pharma" = [] ∧
    (analyze_stock_impact none exFrNone "AAPL" "Pharma" "now").related_stocks = [] ∧
    (analyze_stock_impact none exFrNone "AAPL" "Pharma" "now").summary.total_analyzed = 0 ∧
    (analyze_stock_impact none exFrNone "AAPL" "Pharma" "now").summary.market_influence
      = "Unknown" := by
  have h := (C7_influence_thresholds exFrNone "AAPL" "Pharma" "now").2.2.2.2.2 rfl
  exact ⟨rfl, h.1, h.2.1, h.2.2⟩

end CorrEngine
